import Mathlib

/-!
Verification of the NFL drive-analysis repository's computational core.

The embedding follows the source:
* `nfl_drive_explorer.py` — `update_suggested_drives` (momentum swing lists),
  `drive_summary`, the median baseline and `norm` of `display_drive_data`
  (the comparative fingerprint and the scatter table);
* `nfl_projected_win_analysis.py` — `classify_games` (spread-vs-result
  classification) and the `actual_winner` / win-probability-perspective
  selection of `display_drive_summary`.

Real-valued columns (`epa`, `wpa`, `wp`, `spread_line`) are modelled as
rationals; an absent / NaN `spread_line` as `Option.none`; a row of a pandas
DataFrame as a structure; a DataFrame as a list of rows.  A computation that
raises in Python (a KeyError on an empty frame) is modelled as `Option.none`.
-/

/-- One play row of the drive-explorer play-by-play frame: only the columns
the drive computations read. -/
structure Play where
  play_type : String
  yards_gained : Int
  epa : ℚ
  wpa : ℚ
  wp : ℚ
deriving Repr, DecidableEq

/-- One drive of one game: the rows of the play-by-play frame sharing a
`(game_id, drive)` pair, in frame order. -/
structure DriveRec where
  game_id : String
  drive : Nat
  plays : List Play
deriving Repr, DecidableEq

/-- `drive_df['wp'].iloc[0]`: the first play's win probability
(`none` when the drive frame is empty). -/
def startWp (d : DriveRec) : Option ℚ :=
  d.plays.head?.map Play.wp

/-- `drive_df['wp'].iloc[-1]`: the last play's win probability
(`none` when the drive frame is empty). -/
def endWp (d : DriveRec) : Option ℚ :=
  d.plays.getLast?.map Play.wp

/-- The three momentum categories of `update_suggested_drives`: appended to
the `up` list, appended to the `down` list, or skipped (`continue`). -/
inductive Momentum where
  | swing_up
  | swing_down
  | neutral
deriving Repr, DecidableEq

/-- The branch `update_suggested_drives` takes for given start and end win
probabilities: `if start_wp < 0.5 and end_wp > 0.5` → up,
`elif start_wp > 0.5 and end_wp < 0.5` → down, `else: continue`. -/
def classifyMomentum (s e : ℚ) : Momentum :=
  if s < 1/2 ∧ 1/2 < e then .swing_up
  else if 1/2 < s ∧ e < 1/2 then .swing_down
  else .neutral

/-- The momentum category of one drive: an empty drive frame is skipped
before the comparison (`if drive_df.empty: continue`). -/
def driveMomentum (d : DriveRec) : Momentum :=
  match startWp d, endWp d with
  | some s, some e => classifyMomentum s e
  | _, _ => .neutral

/-- The loop of `update_suggested_drives` over the week's drives: each drive
is appended to the `up` list, the `down` list, or neither, preserving
enumeration order. -/
def update_suggested_drives : List DriveRec → List DriveRec × List DriveRec
  | [] => ([], [])
  | d :: rest =>
      let tail := update_suggested_drives rest
      if d.plays.isEmpty then tail
      else if driveMomentum d = .swing_up then (d :: tail.1, tail.2)
      else if driveMomentum d = .swing_down then (tail.1, d :: tail.2)
      else tail

theorem driveMomentum_some (d : DriveRec) (s e : ℚ)
    (hs : startWp d = some s) (he : endWp d = some e) :
    driveMomentum d = classifyMomentum s e := by
  unfold driveMomentum
  rw [hs, he]

/-- A drive with an empty play frame is skipped, i.e. classified neutral. -/
theorem driveMomentum_of_empty (d : DriveRec) (h : d.plays.isEmpty = true) :
    driveMomentum d = .neutral := by
  rcases hp : d.plays with _ | ⟨p, ps⟩
  · unfold driveMomentum startWp
    rw [hp]
    rfl
  · rw [hp] at h
    simp [List.isEmpty] at h

theorem update_suggested_cons (a : DriveRec) (rest : List DriveRec) :
    update_suggested_drives (a :: rest) =
      if a.plays.isEmpty = false ∧ driveMomentum a = .swing_up then
        ((a :: (update_suggested_drives rest).1),
          (update_suggested_drives rest).2)
      else if a.plays.isEmpty = false ∧ driveMomentum a = .swing_down then
        ((update_suggested_drives rest).1,
          (a :: (update_suggested_drives rest).2))
      else update_suggested_drives rest := by
  show (if a.plays.isEmpty then _
    else if driveMomentum a = .swing_up then _
    else if driveMomentum a = .swing_down then _ else _) = _
  by_cases ha : a.plays.isEmpty
  · rw [if_pos ha, if_neg, if_neg]
    · rintro ⟨haf, _⟩; rw [ha] at haf; cases haf
    · rintro ⟨haf, _⟩; rw [ha] at haf; cases haf
  · have ha' : a.plays.isEmpty = false := by
      cases hb : a.plays.isEmpty
      · rfl
      · exact absurd hb ha
    rw [if_neg ha]
    rcases hm : driveMomentum a with _ | _ | _
    · rw [if_pos rfl, if_pos ⟨ha', rfl⟩]
    · rw [if_neg (by simp), if_pos rfl, if_neg (by simp), if_pos ⟨ha', rfl⟩]
    · rw [if_neg (by simp), if_neg (by simp), if_neg (by simp),
        if_neg (by simp)]

theorem nonempty_of_momentum_up (a : DriveRec)
    (hm : driveMomentum a = .swing_up) : a.plays.isEmpty = false := by
  cases hb : a.plays.isEmpty
  · rfl
  · rw [driveMomentum_of_empty a hb] at hm
    cases hm

theorem nonempty_of_momentum_down (a : DriveRec)
    (hm : driveMomentum a = .swing_down) : a.plays.isEmpty = false := by
  cases hb : a.plays.isEmpty
  · rfl
  · rw [driveMomentum_of_empty a hb] at hm
    cases hm

theorem mem_update_suggested_up (pool : List DriveRec) (d : DriveRec) :
    d ∈ (update_suggested_drives pool).1 ↔
      d ∈ pool ∧ driveMomentum d = .swing_up := by
  induction pool with
  | nil => simp [update_suggested_drives]
  | cons a rest ih =>
      rw [update_suggested_cons]
      by_cases h1 : a.plays.isEmpty = false ∧ driveMomentum a = .swing_up
      · rw [if_pos h1]
        simp only [List.mem_cons, ih]
        constructor
        · rintro (rfl | ⟨hd, hm⟩)
          · exact ⟨Or.inl rfl, h1.2⟩
          · exact ⟨Or.inr hd, hm⟩
        · rintro ⟨rfl | hd, hm⟩
          · exact Or.inl rfl
          · exact Or.inr ⟨hd, hm⟩
      · rw [if_neg h1]
        by_cases h2 : a.plays.isEmpty = false ∧ driveMomentum a = .swing_down
        · rw [if_pos h2]
          simp only [List.mem_cons, ih]
          constructor
          · rintro ⟨hd, hm⟩
            exact ⟨Or.inr hd, hm⟩
          · rintro ⟨rfl | hd, hm⟩
            · rw [h2.2] at hm; cases hm
            · exact ⟨hd, hm⟩
        · rw [if_neg h2]
          simp only [List.mem_cons, ih]
          constructor
          · rintro ⟨hd, hm⟩
            exact ⟨Or.inr hd, hm⟩
          · rintro ⟨rfl | hd, hm⟩
            · exact absurd ⟨nonempty_of_momentum_up d hm, hm⟩ h1
            · exact ⟨hd, hm⟩

theorem mem_update_suggested_down (pool : List DriveRec) (d : DriveRec) :
    d ∈ (update_suggested_drives pool).2 ↔
      d ∈ pool ∧ driveMomentum d = .swing_down := by
  induction pool with
  | nil => simp [update_suggested_drives]
  | cons a rest ih =>
      rw [update_suggested_cons]
      by_cases h1 : a.plays.isEmpty = false ∧ driveMomentum a = .swing_up
      · rw [if_pos h1]
        simp only [List.mem_cons, ih]
        constructor
        · rintro ⟨hd, hm⟩
          exact ⟨Or.inr hd, hm⟩
        · rintro ⟨rfl | hd, hm⟩
          · rw [h1.2] at hm; cases hm
          · exact ⟨hd, hm⟩
      · rw [if_neg h1]
        by_cases h2 : a.plays.isEmpty = false ∧ driveMomentum a = .swing_down
        · rw [if_pos h2]
          simp only [List.mem_cons, ih]
          constructor
          · rintro (rfl | ⟨hd, hm⟩)
            · exact ⟨Or.inl rfl, h2.2⟩
            · exact ⟨Or.inr hd, hm⟩
          · rintro ⟨rfl | hd, hm⟩
            · exact Or.inl rfl
            · exact Or.inr ⟨hd, hm⟩
        · rw [if_neg h2]
          simp only [List.mem_cons, ih]
          constructor
          · rintro ⟨hd, hm⟩
            exact ⟨Or.inr hd, hm⟩
          · rintro ⟨rfl | hd, hm⟩
            · exact absurd ⟨nonempty_of_momentum_down d hm, hm⟩ h2
            · exact ⟨hd, hm⟩

theorem classifyMomentum_up_iff (s e : ℚ) :
    classifyMomentum s e = .swing_up ↔ s < 1/2 ∧ 1/2 < e := by
  unfold classifyMomentum
  split_ifs with h1 h2
  · exact iff_of_true rfl h1
  · simp only [reduceCtorEq, false_iff]
    exact h1
  · simp only [reduceCtorEq, false_iff]
    exact h1

theorem classifyMomentum_down_iff (s e : ℚ) :
    classifyMomentum s e = .swing_down ↔ 1/2 < s ∧ e < 1/2 := by
  unfold classifyMomentum
  split_ifs with h1 h2
  · simp only [reduceCtorEq, false_iff]
    rintro ⟨hl, _⟩
    exact absurd (h1.1.trans hl) (lt_irrefl s)
  · exact iff_of_true rfl h2
  · simp only [reduceCtorEq, false_iff]
    exact h2

theorem driveMomentum_up_iff (d : DriveRec) :
    driveMomentum d = .swing_up ↔
      ∃ s e, startWp d = some s ∧ endWp d = some e ∧ s < 1/2 ∧ 1/2 < e := by
  rcases hp : d.plays with _ | ⟨p, ps⟩
  · have hs : startWp d = none := by simp [startWp, hp]
    have hm : driveMomentum d = .neutral :=
      driveMomentum_of_empty d (by rw [hp]; rfl)
    rw [hm]
    simp [hs]
  · have hs : startWp d = some p.wp := by simp [startWp, hp]
    have he : ∃ q, d.plays.getLast? = some q := by
      rw [hp]
      exact ⟨(p :: ps).getLast (by simp), List.getLast?_eq_getLast _ _⟩
    rcases he with ⟨q, hq⟩
    have he' : endWp d = some q.wp := by
      unfold endWp
      rw [hq]
      rfl
    rw [driveMomentum_some d _ _ hs he', classifyMomentum_up_iff]
    constructor
    · rintro ⟨h1, h2⟩
      exact ⟨_, _, hs, he', h1, h2⟩
    · rintro ⟨s', e', hs', he'', h1, h2⟩
      rw [hs] at hs'
      rw [he'] at he''
      cases hs'
      cases he''
      exact ⟨h1, h2⟩

theorem driveMomentum_down_iff (d : DriveRec) :
    driveMomentum d = .swing_down ↔
      ∃ s e, startWp d = some s ∧ endWp d = some e ∧ 1/2 < s ∧ e < 1/2 := by
  rcases hp : d.plays with _ | ⟨p, ps⟩
  · have hs : startWp d = none := by simp [startWp, hp]
    have hm : driveMomentum d = .neutral :=
      driveMomentum_of_empty d (by rw [hp]; rfl)
    rw [hm]
    simp [hs]
  · have hs : startWp d = some p.wp := by simp [startWp, hp]
    have he : ∃ q, d.plays.getLast? = some q := by
      rw [hp]
      exact ⟨(p :: ps).getLast (by simp), List.getLast?_eq_getLast _ _⟩
    rcases he with ⟨q, hq⟩
    have he' : endWp d = some q.wp := by
      unfold endWp
      rw [hq]
      rfl
    rw [driveMomentum_some d _ _ hs he', classifyMomentum_down_iff]
    constructor
    · rintro ⟨h1, h2⟩
      exact ⟨_, _, hs, he', h1, h2⟩
    · rintro ⟨s', e', hs', he'', h1, h2⟩
      rw [hs] at hs'
      rw [he'] at he''
      cases hs'
      cases he''
      exact ⟨h1, h2⟩

/-- C1: a drive of the pool lands in the swing-up list exactly when its first
play's win probability is strictly below 0.5 and its last play's strictly
above, in the swing-down list exactly under the mirrored strict comparisons,
every other drive (including one touching 0.5 exactly, and the empty drive)
is in neither list, and no drive is in both lists. -/
theorem c1_suggested_drive_classification (pool : List DriveRec) (d : DriveRec) :
    (d ∈ (update_suggested_drives pool).1 ↔
       d ∈ pool ∧ ∃ s e, startWp d = some s ∧ endWp d = some e ∧
         s < 1/2 ∧ 1/2 < e) ∧
    (d ∈ (update_suggested_drives pool).2 ↔
       d ∈ pool ∧ ∃ s e, startWp d = some s ∧ endWp d = some e ∧
         1/2 < s ∧ e < 1/2) ∧
    ¬ (d ∈ (update_suggested_drives pool).1 ∧
       d ∈ (update_suggested_drives pool).2) := by
  refine ⟨?_, ?_, ?_⟩
  · rw [mem_update_suggested_up, driveMomentum_up_iff]
  · rw [mem_update_suggested_down, driveMomentum_down_iff]
  · rintro ⟨hu, hd⟩
    rw [mem_update_suggested_up] at hu
    rw [mem_update_suggested_down] at hd
    rw [hu.2] at hd
    cases hd.2

/-- The summary dict `drive_summary` builds for one drive frame:
`plays` (row count), `epa`/`wpa`/`yards` (column sums), `run_pct`/`pass_pct`
(run and pass play counts over their total, 0 when that total is 0). -/
structure DriveSummary where
  plays : Nat
  epa : ℚ
  wpa : ℚ
  yards : Int
  run_pct : ℚ
  pass_pct : ℚ
deriving Repr, DecidableEq

/-- `drive_summary(df_)` of `display_drive_data`: the per-drive aggregate.
`run_plays / total if total else 0` is the zero-guarded division. -/
def drive_summary (df : List Play) : DriveSummary :=
  let run_plays := (df.filter (fun p => p.play_type == "run")).length
  let pass_plays := (df.filter (fun p => p.play_type == "pass")).length
  let total := run_plays + pass_plays
  { plays := df.length
  , epa := (df.map Play.epa).sum
  , wpa := (df.map Play.wpa).sum
  , yards := (df.map Play.yards_gained).sum
  , run_pct := if total ≠ 0 then (run_plays : ℚ) / (total : ℚ) else 0
  , pass_pct := if total ≠ 0 then (pass_plays : ℚ) / (total : ℚ) else 0 }

/-- C7: every drive summary has `run_pct + pass_pct ≤ 1`, and a drive with no
run and no pass plays gets both percentages exactly 0; the division is
zero-guarded rather than faulting. -/
theorem c7_run_pass_pct_bounded (df : List Play) :
    (drive_summary df).run_pct + (drive_summary df).pass_pct ≤ 1 ∧
    ((df.filter (fun p => p.play_type == "run")).length +
        (df.filter (fun p => p.play_type == "pass")).length = 0 →
      (drive_summary df).run_pct = 0 ∧ (drive_summary df).pass_pct = 0) := by
  set r := (df.filter (fun p => p.play_type == "run")).length with hr
  set p := (df.filter (fun p => p.play_type == "pass")).length with hp
  have hrun : (drive_summary df).run_pct =
      if r + p ≠ 0 then (r : ℚ) / ((r + p : Nat) : ℚ) else 0 := rfl
  have hpass : (drive_summary df).pass_pct =
      if r + p ≠ 0 then (p : ℚ) / ((r + p : Nat) : ℚ) else 0 := rfl
  by_cases h0 : r + p = 0
  · rw [hrun, hpass, if_neg (by simpa using h0), if_neg (by simpa using h0)]
    exact ⟨by norm_num, fun _ => ⟨rfl, rfl⟩⟩
  · refine ⟨?_, fun h => absurd h h0⟩
    rw [hrun, hpass, if_pos h0, if_pos h0]
    have hq : ((r + p : Nat) : ℚ) ≠ 0 := by
      exact_mod_cast h0
    rw [div_add_div_same]
    rw [show ((r : ℚ) + (p : ℚ)) = ((r + p : Nat) : ℚ) by push_cast; ring]
    rw [div_self hq]

/-- The two-play example drive: a 4-yard run with `epa 0.1, wp 0.40` then a
12-yard pass with `epa 0.3, wp 0.55` (no `wpa` column, so `wpa` sums to 0). -/
def examplePlays : List Play :=
  [⟨"run", 4, 1/10, 0, 2/5⟩, ⟨"pass", 12, 3/10, 0, 11/20⟩]

/-- The example drive as one record of the suggested-drives pool. -/
def exampleDrive : DriveRec :=
  ⟨"example_game", 1, examplePlays⟩

/-- C8: on the example two-play drive the aggregator returns
`play_count = 2`, `epa_total = 0.4`, `yards_total = 16`,
`run_pct = pass_pct = 0.5`, the start and end win probabilities are
`0.40` and `0.55`, and the momentum classifier puts the drive in the
swing-up list. -/
theorem c8_example_drive :
    drive_summary examplePlays =
      { plays := 2, epa := 2/5, wpa := 0, yards := 16,
        run_pct := 1/2, pass_pct := 1/2 } ∧
    startWp exampleDrive = some (2/5) ∧
    endWp exampleDrive = some (11/20) ∧
    driveMomentum exampleDrive = .swing_up ∧
    exampleDrive ∈ (update_suggested_drives [exampleDrive]).1 := by
  have hs : startWp exampleDrive = some (2/5) := rfl
  have he : endWp exampleDrive = some (11/20) := rfl
  have hm : driveMomentum exampleDrive = .swing_up := by
    rw [driveMomentum_some _ _ _ hs he]
    unfold classifyMomentum
    rw [if_pos (by norm_num)]
  refine ⟨?_, hs, he, hm, ?_⟩
  · have h1 : (examplePlays.filter (fun p => p.play_type == "run")).length = 1 := by
      simp [examplePlays]
    have h2 : (examplePlays.filter (fun p => p.play_type == "pass")).length = 1 := by
      simp [examplePlays]
    unfold drive_summary
    rw [h1, h2]
    norm_num [examplePlays]
  · rw [mem_update_suggested_up]
    exact ⟨List.mem_singleton.mpr rfl, hm⟩

/-- Insert into a sorted list of rationals (ascending). -/
def insertSorted (x : ℚ) : List ℚ → List ℚ
  | [] => [x]
  | y :: ys => if x ≤ y then x :: y :: ys else y :: insertSorted x ys

/-- Ascending sort of a list of rationals (for the median). -/
def sortQ : List ℚ → List ℚ
  | [] => []
  | x :: xs => insertSorted x (sortQ xs)

/-- The pandas column median: sort ascending; the middle element for an odd
count, the mean of the two middle elements for an even count.  The empty case
is unreachable here: `poolMedians` guards it and returns `none` instead. -/
def medianQ (l : List ℚ) : ℚ :=
  let s := sortQ l
  let n := l.length
  if n = 0 then 0
  else if n % 2 = 1 then s.getD (n / 2) 0
  else (s.getD (n / 2 - 1) 0 + s.getD (n / 2) 0) / 2

/-- `norm(val, med)` of `display_drive_data`:
`val / med if med else 0` — the ratio, 0 when the median is 0.  (Named
`normRatio` here only because `norm` collides with the ambient library.) -/
def normRatio (val med : ℚ) : ℚ :=
  if med ≠ 0 then val / med else 0

/-- The six radar dimensions of one summary, in the source's key order
`['plays', 'epa', 'wpa', 'yards', 'run_pct', 'pass_pct']`. -/
def summaryMetrics (s : DriveSummary) : List ℚ :=
  [(s.plays : ℚ), s.epa, s.wpa, (s.yards : ℚ), s.run_pct, s.pass_pct]

/-- `summary_df.median(numeric_only=True)` read at the six radar keys.  For an
empty pool `summary_df` has no columns, the median Series is empty and
`median[k]` raises `KeyError` — modelled as `none`. -/
def poolMedians (pool : List DriveSummary) : Option (List ℚ) :=
  if pool.isEmpty then none
  else some
    [ medianQ (pool.map fun s => (s.plays : ℚ))
    , medianQ (pool.map DriveSummary.epa)
    , medianQ (pool.map DriveSummary.wpa)
    , medianQ (pool.map fun s => (s.yards : ℚ))
    , medianQ (pool.map DriveSummary.run_pct)
    , medianQ (pool.map DriveSummary.pass_pct) ]

/-- The radar trace of the target: each target metric normalized by the
pool's median for that dimension (`norm(current_summary[k], median[k])`). -/
def fingerprintVec (pool : List DriveSummary) (target : List ℚ) :
    Option (List ℚ) :=
  (poolMedians pool).map fun ms => List.zipWith normRatio target ms

/-- The fingerprint of a target drive summary against a comparison pool. -/
def fingerprint (pool : List DriveSummary) (target : DriveSummary) :
    Option (List ℚ) :=
  fingerprintVec pool (summaryMetrics target)

/-- The bubble-chart table `(epa, wpa, size)` over the pool, with
`size = abs(yards)`.  For an empty pool `summary_df['yards']` raises
`KeyError` (the empty frame has no columns) — modelled as `none`. -/
def scatter_table (pool : List DriveSummary) : Option (List (ℚ × ℚ × ℚ)) :=
  if pool.isEmpty then none
  else some (pool.map fun s => (s.epa, s.wpa, |(s.yards : ℚ)|))

/-- On the empty pool the normalization does not return an all-zero
fingerprint: the median lookup fails (`KeyError`, modelled as `none`), and
the scatter table likewise. -/
theorem c4_counterexample_empty_pool_raises :
    fingerprint ([] : List DriveSummary) (drive_summary []) = none ∧
    scatter_table ([] : List DriveSummary) = none ∧
    fingerprint ([] : List DriveSummary) (drive_summary []) ≠
      some [0, 0, 0, 0, 0, 0] := by
  refine ⟨rfl, rfl, ?_⟩
  intro h
  cases h

/-- C4 amended: for every target, the empty comparison pool makes the
fingerprint and the scatter table fail (`none`), not an all-zero fingerprint
with an empty table. -/
theorem c4_empty_pool_fails (target : DriveSummary) :
    fingerprint ([] : List DriveSummary) target = none ∧
    scatter_table ([] : List DriveSummary) = none :=
  ⟨rfl, rfl⟩

/-- Normalizing a value by itself gives 1 unless the value is 0, in which
case the zero-median guard gives 0. -/
theorem norm_self (m : ℚ) : normRatio m m = if m = 0 then 0 else 1 := by
  unfold normRatio
  by_cases h : m = 0
  · rw [if_neg (by simpa using h), if_pos h]
  · rw [if_pos h, if_neg h, div_self h]

theorem zipWith_norm_self (ms : List ℚ) :
    List.zipWith normRatio ms ms = ms.map fun m => if m = 0 then 0 else 1 := by
  induction ms with
  | nil => rfl
  | cons m rest ih =>
      simp only [List.zipWith_cons_cons, List.map_cons, ih, norm_self]

/-- C5 amended: over any non-empty pool, the fingerprint of the target built
exactly from the pool's six per-dimension medians is 1 in every dimension
whose median is nonzero and 0 in every dimension whose median is zero; it is
the all-ones reference vector only when every median is nonzero. -/
theorem c5_median_target_fingerprint (s : DriveSummary)
    (pool : List DriveSummary) :
    ∃ ms, poolMedians (s :: pool) = some ms ∧
      fingerprintVec (s :: pool) ms =
        some (ms.map fun m => if m = 0 then 0 else 1) := by
  refine ⟨_, rfl, ?_⟩
  exact congrArg some (zipWith_norm_self _)

/-- A one-play drive with zero EPA, zero WPA and zero yards: its summary has
median-degenerate dimensions. -/
def c5Play : Play :=
  ⟨"run", 0, 0, 0, 1/2⟩

/-- The summary of `[c5Play]`: one play, all-zero sums, all-run mix. -/
def c5PoolSummary : DriveSummary :=
  ⟨1, 0, 0, 0, 1, 0⟩

/-- Counterexample to C5 as stated: over the singleton pool `[c5PoolSummary]`
(whose per-dimension medians are that drive's own metrics), the fingerprint
of the target built exactly from those medians is `[1, 0, 0, 0, 1, 0]`, not
the all-ones reference vector: the zero-median dimensions normalize to 0. -/
theorem c5_counterexample_zero_median :
    drive_summary [c5Play] = c5PoolSummary ∧
    poolMedians [c5PoolSummary] = some (summaryMetrics c5PoolSummary) ∧
    fingerprint [c5PoolSummary] c5PoolSummary = some [1, 0, 0, 0, 1, 0] ∧
    some [(1 : ℚ), 0, 0, 0, 1, 0] ≠ some [(1 : ℚ), 1, 1, 1, 1, 1] := by
  refine ⟨?_, ?_, ?_, by norm_num⟩
  · have h1 : (([c5Play]).filter (fun p => p.play_type == "run")).length = 1 := by
      simp [c5Play]
    have h2 : (([c5Play]).filter (fun p => p.play_type == "pass")).length = 0 := by
      simp [c5Play]
    unfold drive_summary
    rw [h1, h2]
    norm_num [c5Play, c5PoolSummary]
  · norm_num [poolMedians, summaryMetrics, medianQ, sortQ, insertSorted,
      c5PoolSummary]
  · norm_num [fingerprint, fingerprintVec, poolMedians, summaryMetrics,
      medianQ, sortQ, insertSorted, normRatio, c5PoolSummary]

/-- One terminal row per game, as `classify_games` reads it: identity
columns, the pregame `spread_line` (`none` for NaN), and the final score
columns of the game's last play. -/
structure GameRow where
  game_id : String
  season : Int
  home_team : String
  away_team : String
  spread_line : Option ℚ
  total_home_score : Int
  total_away_score : Int
deriving Repr, DecidableEq

/-- One result dict appended by `classify_games`. -/
structure ClassifiedGame where
  game_id : String
  season : Int
  home_team : String
  away_team : String
  spread : ℚ
  expected_winner : String
  actual_winner : String
  result_type : String
  big_home_favorite_upset : Bool
  big_away_favorite_upset : Bool
deriving Repr, DecidableEq

/-- The `expected` winner of `classify_games`: home team for a positive
spread, away team for a negative one, `"Even"` for zero. -/
def expected_of (row : GameRow) (spread : ℚ) : String :=
  if spread > 0 then row.home_team
  else if spread < 0 then row.away_team
  else "Even"

/-- The `actual` winner of `classify_games`: the team with the higher final
score, `"Tie"` for equal scores. -/
def actual_of (row : GameRow) : String :=
  if row.total_home_score > row.total_away_score then row.home_team
  else if row.total_away_score > row.total_home_score then row.away_team
  else "Tie"

/-- The `result_type` chain of `classify_games`: `even_match` when the
expected winner is `"Even"` or the actual winner `"Tie"`, else
`confirmed_win` when they match, else `upset`. -/
def result_type_of (expected actual : String) : String :=
  if expected = "Even" ∨ actual = "Tie" then "even_match"
  else if expected = actual then "confirmed_win"
  else "upset"

/-- The body of the `classify_games` loop for one row: `None` models the
`if pd.isna(spread): continue` skip; otherwise the expected winner by the
sign of the spread, the actual winner by the final score, the result type,
and the two big-upset flags with the exclusive threshold 6. -/
def classifyRow (row : GameRow) : Option ClassifiedGame :=
  match row.spread_line with
  | none => none
  | some spread =>
      let expected := expected_of row spread
      let actual := actual_of row
      let result_type := result_type_of expected actual
      some
        { game_id := row.game_id
        , season := row.season
        , home_team := row.home_team
        , away_team := row.away_team
        , spread := spread
        , expected_winner := expected
        , actual_winner := actual
        , result_type := result_type
        , big_home_favorite_upset := decide (result_type = "upset" ∧ spread > 6)
        , big_away_favorite_upset := decide (result_type = "upset" ∧ spread < -6) }

/-- `classify_games(end_games)`: one classification per row whose spread is
present, in row order. -/
def classify_games (end_games : List GameRow) : List ClassifiedGame :=
  end_games.filterMap classifyRow

theorem expected_of_eq_even_iff (row : GameRow) (spread : ℚ)
    (hhe : row.home_team ≠ "Even") (hae : row.away_team ≠ "Even") :
    expected_of row spread = "Even" ↔ spread = 0 := by
  unfold expected_of
  split_ifs with h1 h2
  · exact iff_of_false hhe (ne_of_gt h1)
  · exact iff_of_false hae (ne_of_lt h2)
  · exact iff_of_true rfl (le_antisymm (not_lt.mp h1) (not_lt.mp h2))

theorem actual_of_eq_tie_iff (row : GameRow)
    (hht : row.home_team ≠ "Tie") (hat : row.away_team ≠ "Tie") :
    actual_of row = "Tie" ↔ row.total_home_score = row.total_away_score := by
  unfold actual_of
  split_ifs with h1 h2
  · exact iff_of_false hht (by omega)
  · exact iff_of_false hat (by omega)
  · exact iff_of_true rfl (by omega)

theorem expected_of_ne_tie (row : GameRow) (spread : ℚ)
    (hht : row.home_team ≠ "Tie") (hat : row.away_team ≠ "Tie") :
    expected_of row spread ≠ "Tie" := by
  unfold expected_of
  split_ifs with h1 h2
  · exact hht
  · exact hat
  · simp

theorem actual_of_ne_even (row : GameRow)
    (hhe : row.home_team ≠ "Even") (hae : row.away_team ≠ "Even") :
    actual_of row ≠ "Even" := by
  unfold actual_of
  split_ifs with h1 h2
  · exact hhe
  · exact hae
  · simp

theorem result_type_of_even_iff (e a : String) :
    result_type_of e a = "even_match" ↔ (e = "Even" ∨ a = "Tie") := by
  unfold result_type_of
  split_ifs with h1 h2
  · exact iff_of_true rfl h1
  · exact iff_of_false (by simp) h1
  · exact iff_of_false (by simp) h1

theorem result_type_of_confirmed_iff (e a : String) :
    result_type_of e a = "confirmed_win" ↔
      (¬ (e = "Even" ∨ a = "Tie") ∧ e = a) := by
  unfold result_type_of
  split_ifs with h1 h2
  · exact iff_of_false (by simp) fun hc => hc.1 h1
  · exact iff_of_true rfl ⟨h1, h2⟩
  · exact iff_of_false (by simp) fun hc => h2 hc.2

theorem result_type_of_upset_iff (e a : String) :
    result_type_of e a = "upset" ↔
      (¬ (e = "Even" ∨ a = "Tie") ∧ e ≠ a) := by
  unfold result_type_of
  split_ifs with h1 h2
  · exact iff_of_false (by simp) fun hc => hc.1 h1
  · exact iff_of_false (by simp) fun hc => hc.2 h2
  · exact iff_of_true rfl ⟨h1, h2⟩

/-- What `classifyRow` returns when the spread is present, with every field
written out. -/
theorem classifyRow_some (row : GameRow) (spread : ℚ)
    (hs : row.spread_line = some spread) :
    classifyRow row = some
      { game_id := row.game_id
      , season := row.season
      , home_team := row.home_team
      , away_team := row.away_team
      , spread := spread
      , expected_winner := expected_of row spread
      , actual_winner := actual_of row
      , result_type := result_type_of (expected_of row spread) (actual_of row)
      , big_home_favorite_upset :=
          decide (result_type_of (expected_of row spread) (actual_of row) =
            "upset" ∧ spread > 6)
      , big_away_favorite_upset :=
          decide (result_type_of (expected_of row spread) (actual_of row) =
            "upset" ∧ spread < -6) } := by
  unfold classifyRow
  rw [hs]

/-- `classifyRow` skips exactly the rows with an absent spread. -/
theorem classifyRow_none (row : GameRow) (hs : row.spread_line = none) :
    classifyRow row = none := by
  unfold classifyRow
  rw [hs]

/-- C2: with team names distinct from the sentinels `"Even"` and `"Tie"`,
every classified game is `even_match` exactly when the spread is zero or the
final scores are equal, `confirmed_win` exactly when the expected winner
equals the actual winner, and `upset` otherwise. -/
theorem c2_result_type_classification (r : GameRow) (c : ClassifiedGame)
    (h : classifyRow r = some c)
    (hhe : r.home_team ≠ "Even") (hae : r.away_team ≠ "Even")
    (hht : r.home_team ≠ "Tie") (hat : r.away_team ≠ "Tie") :
    (c.result_type = "even_match" ↔
      (c.spread = 0 ∨ r.total_home_score = r.total_away_score)) ∧
    (c.result_type = "confirmed_win" ↔ c.expected_winner = c.actual_winner) ∧
    (c.result_type = "upset" ↔
      (c.spread ≠ 0 ∧ r.total_home_score ≠ r.total_away_score ∧
        c.expected_winner ≠ c.actual_winner)) := by
  rcases hs : r.spread_line with _ | spread
  · rw [classifyRow_none r hs] at h
    cases h
  · rw [classifyRow_some r spread hs] at h
    injection h with h
    subst h
    dsimp only
    have hee := expected_of_eq_even_iff r spread hhe hae
    have hta := actual_of_eq_tie_iff r hht hat
    have hent := expected_of_ne_tie r spread hht hat
    have hane := actual_of_ne_even r hhe hae
    refine ⟨?_, ?_, ?_⟩
    · rw [result_type_of_even_iff, hee, hta]
    · rw [result_type_of_confirmed_iff]
      constructor
      · rintro ⟨_, h2⟩
        exact h2
      · intro h2
        refine ⟨?_, h2⟩
        rintro (h3 | h3)
        · exact hane (h2.symm.trans h3)
        · exact hent (h2.trans h3)
    · rw [result_type_of_upset_iff]
      constructor
      · rintro ⟨hne, hea⟩
        exact ⟨fun h0 => hne (Or.inl (hee.mpr h0)),
          fun h0 => hne (Or.inr (hta.mpr h0)), hea⟩
      · rintro ⟨h0, hsc, hea⟩
        refine ⟨?_, hea⟩
        rintro (h3 | h3)
        · exact h0 (hee.mp h3)
        · exact hsc (hta.mp h3)

/-- The 3-point home favorite that won 30–20: a confirmed win. -/
def c2Row : GameRow :=
  ⟨"2023_01_C2", 2023, "KC", "DET", some 3, 30, 20⟩

/-- The classification `classify_games` produces for `c2Row`. -/
def c2Out : ClassifiedGame :=
  ⟨"2023_01_C2", 2023, "KC", "DET", 3, "KC", "KC", "confirmed_win",
    false, false⟩

theorem classifyRow_c2Row : classifyRow c2Row = some c2Out := by
  rw [classifyRow_some c2Row 3 rfl]
  unfold c2Out
  have he : expected_of c2Row 3 = "KC" := by
    norm_num [expected_of, c2Row]
  have ha : actual_of c2Row = "KC" := by
    norm_num [actual_of, c2Row]
  rw [he, ha]
  have hr : result_type_of "KC" "KC" = "confirmed_win" := by
    simp [result_type_of]
  rw [hr]
  norm_num [c2Row]

/-- Witness for C2 at `c2Row`: the hypotheses hold and the classification is
`confirmed_win` with matching expected and actual winner. -/
theorem c2_result_type_classification_witness :
    (c2Out.result_type = "even_match" ↔
      (c2Out.spread = 0 ∨ c2Row.total_home_score = c2Row.total_away_score)) ∧
    (c2Out.result_type = "confirmed_win" ↔
      c2Out.expected_winner = c2Out.actual_winner) ∧
    (c2Out.result_type = "upset" ↔
      (c2Out.spread ≠ 0 ∧ c2Row.total_home_score ≠ c2Row.total_away_score ∧
        c2Out.expected_winner ≠ c2Out.actual_winner)) :=
  c2_result_type_classification c2Row c2Out classifyRow_c2Row
    (by simp [c2Row]) (by simp [c2Row]) (by simp [c2Row]) (by simp [c2Row])

/-- Each big-upset flag of a classified game holds exactly when the result is
an upset and the spread clears the threshold 6 in the matching direction. -/
theorem classifyRow_flags (r : GameRow) (c : ClassifiedGame)
    (h : classifyRow r = some c) :
    (c.big_home_favorite_upset = true ↔
      (c.result_type = "upset" ∧ 6 < c.spread)) ∧
    (c.big_away_favorite_upset = true ↔
      (c.result_type = "upset" ∧ c.spread < -6)) := by
  rcases hs : r.spread_line with _ | spread
  · rw [classifyRow_none r hs] at h
    cases h
  · rw [classifyRow_some r spread hs] at h
    injection h with h
    subst h
    dsimp only
    constructor
    · rw [decide_eq_true_eq]
    · rw [decide_eq_true_eq]

/-- The 10-point away favorite beaten 20–17 at home. -/
def c3Game : GameRow :=
  ⟨"2023_01_C3", 2023, "HOM", "AWY", some (-10), 20, 17⟩

/-- The classification `classify_games` produces for `c3Game`: an upset of a
big away favorite. -/
def c3Out : ClassifiedGame :=
  ⟨"2023_01_C3", 2023, "HOM", "AWY", -10, "AWY", "HOM", "upset",
    false, true⟩

/-- C3: for every classified game, `big_home_favorite_upset` holds exactly
when the result is an upset with spread strictly above 6, and
`big_away_favorite_upset` exactly when it is an upset with spread strictly
below −6; and the 10-point away favorite beaten 20–17 yields expected winner
`AWY`, actual winner `HOM`, an `upset` with `big_away_favorite_upset` and
not `big_home_favorite_upset`. -/
theorem c3_big_upset_flags :
    (∀ (r : GameRow) (c : ClassifiedGame), classifyRow r = some c →
      ((c.big_home_favorite_upset = true ↔
         (c.result_type = "upset" ∧ 6 < c.spread)) ∧
       (c.big_away_favorite_upset = true ↔
         (c.result_type = "upset" ∧ c.spread < -6)))) ∧
    classifyRow c3Game = some c3Out := by
  refine ⟨classifyRow_flags, ?_⟩
  rw [classifyRow_some c3Game (-10) rfl]
  unfold c3Out
  have he : expected_of c3Game (-10) = "AWY" := by
    norm_num [expected_of, c3Game]
  have ha : actual_of c3Game = "HOM" := by
    norm_num [actual_of, c3Game]
  rw [he, ha]
  have hr : result_type_of "AWY" "HOM" = "upset" := by
    simp [result_type_of]
  rw [hr]
  have hbh : decide (("upset" : String) = "upset" ∧ (-10 : ℚ) > 6) = false := by
    rw [decide_eq_false_iff_not]
    norm_num
  have hba : decide (("upset" : String) = "upset" ∧ (-10 : ℚ) < -6) = true := by
    rw [decide_eq_true_eq]
    norm_num
  rw [hbh, hba]
  rfl

/-- C9: the two big-upset flags are mutually exclusive — they would need the
spread both strictly above 6 and strictly below −6. -/
theorem c9_big_flags_exclusive (r : GameRow) (c : ClassifiedGame)
    (h : classifyRow r = some c) :
    ¬ (c.big_home_favorite_upset = true ∧ c.big_away_favorite_upset = true) := by
  rintro ⟨hh, ha⟩
  have hf := classifyRow_flags r c h
  rw [hf.1] at hh
  rw [hf.2] at ha
  have h6 : (6 : ℚ) < -6 := hh.2.trans ha.2
  norm_num at h6

/-- The 8-point home favorite beaten 10–20: a big home-favorite upset. -/
def c9Row : GameRow :=
  ⟨"2020_01_C9", 2020, "PHI", "WAS", some 8, 10, 20⟩

/-- The classification `classify_games` produces for `c9Row`. -/
def c9Out : ClassifiedGame :=
  ⟨"2020_01_C9", 2020, "PHI", "WAS", 8, "PHI", "WAS", "upset",
    true, false⟩

theorem classifyRow_c9Row : classifyRow c9Row = some c9Out := by
  rw [classifyRow_some c9Row 8 rfl]
  unfold c9Out
  have he : expected_of c9Row 8 = "PHI" := by
    norm_num [expected_of, c9Row]
  have ha : actual_of c9Row = "WAS" := by
    norm_num [actual_of, c9Row]
  rw [he, ha]
  have hr : result_type_of "PHI" "WAS" = "upset" := by
    simp [result_type_of]
  rw [hr]
  have hbh : decide (("upset" : String) = "upset" ∧ (8 : ℚ) > 6) = true := by
    rw [decide_eq_true_eq]
    norm_num
  have hba : decide (("upset" : String) = "upset" ∧ (8 : ℚ) < -6) = false := by
    rw [decide_eq_false_iff_not]
    norm_num
  rw [hbh, hba]
  rfl

/-- Witness for C9 at `c9Row`: a big home-favorite upset whose two flags are
not both set. -/
theorem c9_big_flags_exclusive_witness :
    ¬ (c9Out.big_home_favorite_upset = true ∧
       c9Out.big_away_favorite_upset = true) :=
  c9_big_flags_exclusive c9Row c9Out classifyRow_c9Row

/-- C6: a row whose spread is absent contributes nothing to the classified
output — `classify_games` of any list containing it equals `classify_games`
of the list with it removed (so the game is skipped, not defaulted). -/
theorem c6_missing_spread_skipped (xs ys : List GameRow) (r : GameRow)
    (h : r.spread_line = none) :
    classify_games (xs ++ r :: ys) = classify_games (xs ++ ys) := by
  unfold classify_games
  rw [List.filterMap_append, List.filterMap_append, List.filterMap_cons,
    classifyRow_none r h]

/-- The NaN-spread row of the C6 witness. -/
def c6NoSpreadRow : GameRow :=
  ⟨"1999_01_C6", 1999, "CHI", "GB", none, 14, 21⟩

/-- Witness for C6: dropping the NaN-spread row between two classifiable
rows leaves the classified output unchanged. -/
theorem c6_missing_spread_skipped_witness :
    classify_games [c2Row, c6NoSpreadRow, c9Row] =
      classify_games [c2Row, c9Row] :=
  c6_missing_spread_skipped [c2Row] [c9Row] c6NoSpreadRow rfl

/-- One play row of the projected-win-analysis frame: the columns
`display_drive_summary` reads. -/
structure PwPlay where
  home_team : String
  away_team : String
  posteam : String
  defteam : String
  wp : ℚ
  home_wp : ℚ
  away_wp : ℚ
  total_home_score : Int
  total_away_score : Int
deriving Repr, DecidableEq

/-- `display_drive_summary`'s winner of the game, read off its last play:
`home_team if total_home_score > total_away_score else away_team` — a strict
comparison with no tie branch. -/
def display_actual_winner (lastRow : PwPlay) : String :=
  if lastRow.total_home_score > lastRow.total_away_score then lastRow.home_team
  else lastRow.away_team

/-- The `(start_wp, end_wp)` pair `display_drive_summary` records for one
drive group: the home-perspective columns when the computed winner is the
group's home team, the away-perspective columns otherwise; each side falls
back to the raw `wp` column when the perspective column is absent from the
frame (`hasHomeWp` / `hasAwayWp`).  `none` for an empty group. -/
def drive_start_end_wp (hasHomeWp hasAwayWp : Bool) (actualWinner : String)
    (group : List PwPlay) : Option (ℚ × ℚ) :=
  match group.head?, group.getLast? with
  | some firstRow, some lastRow =>
      if actualWinner = firstRow.home_team then
        some (if hasHomeWp then firstRow.home_wp else firstRow.wp,
              if hasHomeWp then lastRow.home_wp else lastRow.wp)
      else
        some (if hasAwayWp then firstRow.away_wp else firstRow.wp,
              if hasAwayWp then lastRow.away_wp else lastRow.wp)
  | _, _ => none

/-- C10: when the game's final scores are equal, the strict `>` comparison
makes the computed `actual_winner` the away team, so every drive group of
that game (with consistent team columns and distinct team names) gets its
`start_wp` and `end_wp` from the away team's perspective. -/
theorem c10_tie_uses_away_perspective (endRow : PwPlay)
    (hH hA : Bool) (group : List PwPlay) (firstRow lastRow : PwPlay)
    (htie : endRow.total_home_score = endRow.total_away_score)
    (hfirst : group.head? = some firstRow)
    (hlast : group.getLast? = some lastRow)
    (hteam : firstRow.home_team = endRow.home_team)
    (hdistinct : endRow.home_team ≠ endRow.away_team) :
    display_actual_winner endRow = endRow.away_team ∧
    drive_start_end_wp hH hA (display_actual_winner endRow) group =
      some (if hA then firstRow.away_wp else firstRow.wp,
            if hA then lastRow.away_wp else lastRow.wp) := by
  have hw : display_actual_winner endRow = endRow.away_team := by
    unfold display_actual_winner
    rw [if_neg (by omega)]
  refine ⟨hw, ?_⟩
  have hne : ¬ (display_actual_winner endRow = firstRow.home_team) := by
    rw [hw, hteam]
    exact fun h => hdistinct h.symm
  unfold drive_start_end_wp
  rw [hfirst, hlast]
  dsimp only
  rw [if_neg hne]

/-- The single play of the tied C10 example game. -/
def c10Row : PwPlay :=
  ⟨"ATL", "NO", "ATL", "NO", 9/20, 9/20, 11/20, 23, 23⟩

/-- Witness for C10 at a one-play drive of a 23–23 game: the computed winner
is the away team and the recorded probabilities are the away-perspective
column values. -/
theorem c10_tie_uses_away_perspective_witness :
    display_actual_winner c10Row = c10Row.away_team ∧
    drive_start_end_wp true true (display_actual_winner c10Row) [c10Row] =
      some (if true then c10Row.away_wp else c10Row.wp,
            if true then c10Row.away_wp else c10Row.wp) :=
  c10_tie_uses_away_perspective c10Row true true [c10Row] c10Row c10Row
    rfl rfl rfl rfl (by simp [c10Row])
